import Mathlib

/-!
Verification development for the browser-selector repository.

The definitions below are a shallow embedding of the repository's code:

* `src/os/macos/sys_browsers.rs` — plist-based browser discovery
  (`read_system_browsers_sync`, `supported_url_schemes_from_appinfo`,
  `browser_from_plist`);
* `src/ui.rs` — icon conversion (`hicon_to_software_bitmap`,
  `software_bitmap_to_xaml_image`).

External effects (filesystem reads, plist file parsing, WinAPI / WinRT
calls) are supplied through explicit environment records; Rust panics
(`unwrap` on `Err`, `unreachable!`) are modelled by `Option.none` at the
function that would panic.
-/

namespace BrowserSelector

/-! ## Plist values (the subset of the `plist` crate API used by the source) -/

/-- A parsed property-list value.  Dictionaries are ordered key/value lists,
matching the `plist` crate's insertion-ordered `Dictionary`; `other` stands
for every plist node that is neither a string, an array nor a dictionary
(booleans, integers, dates, data, ...). -/
inductive PValue where
  | string (s : String)
  | array (xs : List PValue)
  | dict (xs : List (String × PValue))
  | other

/-- `plist::Value::as_string` -/
def PValue.as_string : PValue → Option String
  | .string s => some s
  | _ => none

/-- `plist::Value::as_array` -/
def PValue.as_array : PValue → Option (List PValue)
  | .array xs => some xs
  | _ => none

/-- `plist::Value::as_dictionary` -/
def PValue.as_dictionary : PValue → Option (List (String × PValue))
  | .dict xs => some xs
  | _ => none

/-- A plist dictionary: ordered association list of keys to values. -/
abbrev PDict := List (String × PValue)

/-- `plist::Dictionary::get`: first entry with the given key. -/
def dictGet (d : PDict) (k : String) : Option PValue :=
  (d.find? (fun p => p.1 == k)).map (·.2)

/-! ## Browser records (`Browser`, `VersionInfo`) -/

/-- Modelled from the spec: the binary architecture class stored in
`VersionInfo` (`BinaryType` lives in `src/os/shared`, which is not under
`src/`); the discovery code only ever uses the `none` variant. -/
inductive BinaryType where
  | none
  | other
deriving DecidableEq

/-- Modelled from the spec: version metadata of a candidate (product name,
product version string, publisher/company name, free-text description,
binary architecture class); `VersionInfo` itself lives in `src/os/shared`,
which is not under `src/`.  Unknown fields default to the empty string. -/
structure VersionInfo where
  company_name : String
  file_description : String
  product_version : String
  product_name : String
  binary_type : BinaryType
deriving DecidableEq

/-- The `Browser` struct of `src/os/macos/sys_browsers.rs`. -/
structure Browser where
  exe_path : String
  arguments : List String
  name : String
  icon : String
  exe_exists : Bool
  icon_exists : Bool
  version : VersionInfo
deriving DecidableEq

/-! ## Browser metadata extraction (`browser_from_plist`) -/

/-- The three required manifest keys, in the order the source checks them. -/
def plist_props : List String :=
  ["CFBundleExecutable", "CFBundleName", "CFBundleShortVersionString"]

/-- The per-property closure of `browser_from_plist`: look the key up in the
dictionary (missing ⇒ `No {prop} found in Info.plist`), then read it as a
string (wrong type ⇒ `Cannot convert {prop} to a string.`). -/
def propValue (d : PDict) (p : String) : Except String String :=
  match dictGet d p with
  | none => .error ("No " ++ p ++ " found in Info.plist")
  | some v =>
    match v.as_string with
    | none => .error ("Cannot convert " ++ p ++ " to a string.")
    | some s => .ok s

/-- The `map` + `try_fold` of `browser_from_plist`: collect all property
values in order, stopping at the first error. -/
def collectProps (d : PDict) : List String → Except String (List String)
  | [] => .ok []
  | p :: ps =>
    match propValue d p with
    | .error e => .error e
    | .ok s => (collectProps d ps).map (s :: ·)

/-- `browser_from_plist` from `src/os/macos/sys_browsers.rs`.  `fs` is the
filesystem-existence oracle backing `Path::exists`.  The source's
`unreachable!()` arm (slice pattern of length ≠ 3) is modelled by an error
value; it is dead because `plist_props` has exactly three elements. -/
def browser_from_plist (fs : String → Bool) (d : PDict) (app_dir : String) :
    Except String Browser :=
  match collectProps d plist_props with
  | .error e => .error e
  | .ok prop_values =>
    match prop_values with
    | [bin_filename, name, version_code] =>
      let exe_path := app_dir ++ "/MacOS/" ++ bin_filename
      .ok
        { exe_path := exe_path
          exe_exists := fs exe_path
          icon_exists := false
          version :=
            { company_name := ""
              file_description := ""
              product_version := version_code
              product_name := name
              binary_type := .none }
          name := name
          icon := ""
          arguments := [] }
    | _ => .error "unreachable!"

/-! ## URL-scheme extraction (`supported_url_schemes_from_appinfo`) -/

/-- One `CFBundleURLTypes` entry, as read by the first computation of
`supported_url_schemes_from_appinfo`: the entry must be a dictionary with a
`CFBundleURLSchemes` array; each scheme is read with
`as_string().unwrap_or_default()`, so non-string schemes become `""`. -/
def schemesOfEntry (item : PValue) : Except String (List String) :=
  match item.as_dictionary with
  | none => .error "Cannot read CFBundleURLTypes as dictionary."
  | some idict =>
    match dictGet idict "CFBundleURLSchemes" with
    | none => .error "No CFBundleURLSchemes key found."
    | some schemes =>
      match schemes.as_array with
      | none => .error "Cannot read CFBundleURLSchemes as array."
      | some sarr => .ok (sarr.map (fun v => (v.as_string).getD ""))

/-- The `try_fold` flattening the per-entry scheme lists: the first
malformed entry turns the whole result into that entry's error. -/
def tryConcatSchemes : List PValue → Except String (List String)
  | [] => .ok []
  | item :: rest =>
    match schemesOfEntry item with
    | .error e => .error e
    | .ok v => (tryConcatSchemes rest).map (v ++ ·)

/-- One `CFBundleURLTypes` entry as read by the second computation: same
structural checks, but schemes are kept as `Option` (no defaulting). -/
def entrySchemesOpt (item : PValue) : Except String (List (Option String)) :=
  match item.as_dictionary with
  | none => .error "Cannot read CFBundleURLTypes as dictionary."
  | some idict =>
    match dictGet idict "CFBundleURLSchemes" with
    | none => .error "No CFBundleURLSchemes key found."
    | some schemes =>
      match schemes.as_array with
      | none => .error "Cannot read CFBundleURLSchemes as array."
      | some sarr => .ok (sarr.map (fun v => v.as_string))

/-- The `collect::<Result<Vec<_>>>` over all entries: first error wins. -/
def collectEntryOpts : List PValue → Except String (List (List (Option String)))
  | [] => .ok []
  | item :: rest =>
    match entrySchemesOpt item with
    | .error e => .error e
    | .ok v => (collectEntryOpts rest).map (v :: ·)

/-- The second computation of `supported_url_schemes_from_appinfo`
(`url_schemas_option`): `None` when the key is absent or not an array;
otherwise `Some` of either the flattened non-`None` schemes, or the empty
list when any entry was malformed (the error is pushed into a local vector
that the source never reads again). -/
def url_schemas_option (d : PDict) : Option (List String) :=
  match dictGet d "CFBundleURLTypes" with
  | none => none
  | some v =>
    match v.as_array with
    | none => none
    | some arr =>
      some
        (match collectEntryOpts arr with
        | .error _ => []
        | .ok bundle_schemes => bundle_schemes.flatten.filterMap id)

/-- `supported_url_schemes_from_appinfo` from
`src/os/macos/sys_browsers.rs`: a missing `CFBundleURLTypes` key or a
non-array value exits the whole function with an error (the two leading `?`
operators); otherwise the pair of the `try_fold` result and the
`url_schemas_option` value is returned. -/
def supported_url_schemes_from_appinfo (d : PDict) :
    Except String (Except String (List String) × Option (List String)) :=
  match dictGet d "CFBundleURLTypes" with
  | none => .error "No CFBundleURLTypes"
  | some v =>
    match v.as_array with
    | none => .error "Cannot read CFBundleURLTypes as array"
    | some arr => .ok (tryConcatSchemes arr, url_schemas_option d)

/-! ## The scan (`read_system_browsers_sync`) -/

/-- The required schemes, in the order of the source's `urls_required`. -/
def urls_required : List String := ["https", "http"]

/-- One step of the `for_each` over the flattened scheme list
(lines 120–129 of `sys_browsers.rs`): for each scheme contained in
`urls_required`, run `browser_from_plist` and push the browser on success
or the error on failure. -/
def push_step (fs : String → Bool) (d : PDict) (app_dir : String)
    (st : List Browser × List String) (scheme : String) :
    List Browser × List String :=
  if urls_required.contains scheme then
    match browser_from_plist fs d app_dir with
    | .ok b => (st.1 ++ [b], st.2)
    | .error e => (st.1, st.2 ++ [e])
  else st

/-- The whole `for_each` over the scheme list. -/
def push_loop (fs : String → Bool) (d : PDict) (app_dir : String) :
    List String → List Browser × List String → List Browser × List String
  | [], st => st
  | s :: ss, st => push_loop fs d app_dir ss (push_step fs d app_dir st s)

/-- A `read_dir` entry: `std::io::Result<DirEntry>`; an `err` entry makes
the source panic on `file.as_ref().unwrap()`. -/
inductive DirEntryR where
  | ok (path : String)
  | err (msg : String)

/-- The environment of the scan: directory listings (`none` models a
`read_dir` error, which the source unwraps), filesystem existence, and
plist file parsing (`error` models a `plist::Value::from_file` failure,
which the source unwraps). -/
structure Env where
  readDir : String → Option (List DirEntryR)
  pathExists : String → Bool
  plistFromFile : String → Except String PValue

/-- The directories scanned by `read_system_browsers_sync`. -/
def directories : List String := ["/Applications", "/System/Applications"]

/-- Processing of one directory entry (the closure of the inner
`try_for_each`).  The result is `none` when the source panics
(`unwrap` on an `Err` dir entry, on a failed plist parse, or on an `Err`
`url_schemes_result`); otherwise `some (browsers', err?)` where `err?` is
the `BSResult` the closure returns (`some e` stops the `try_for_each`).
The `url_schemas_option.is_none()` early return is kept even though it is
unreachable once `supported_url_schemes_from_appinfo` has returned `Ok`;
its debug-only print is dropped (release semantics). -/
def processEntry (env : Env) (browsers : List Browser) (file : DirEntryR) :
    Option (List Browser × Option String) :=
  match file with
  | .err _ => none
  | .ok path =>
    let info_plist_path := path ++ "/Contents/Info.plist"
    let app_dir := path ++ "/Contents"
    if env.pathExists info_plist_path then
      match env.plistFromFile info_plist_path with
      | .error _ => none
      | .ok v =>
        match v.as_dictionary with
        | none => some (browsers, none)
        | some app_info_dict =>
          match supported_url_schemes_from_appinfo app_info_dict with
          | .error e => some (browsers, some e)
          | .ok (url_schemes_result, url_schemas_opt) =>
            match url_schemas_opt with
            | none => some (browsers, none)
            | some _ =>
              match url_schemes_result with
              | .error _ => none
              | .ok schemes =>
                some ((push_loop env.pathExists app_info_dict app_dir
                  schemes (browsers, [])).1, none)
    else some (browsers, none)

/-- The inner `try_for_each` over a directory's entries: stops at the first
entry whose closure returns an error, carrying the accumulator along. -/
def runEntries (env : Env) :
    List DirEntryR → List Browser → Option (List Browser × Option String)
  | [], browsers => some (browsers, none)
  | f :: fs, browsers =>
    match processEntry env browsers f with
    | none => none
    | some (browsers', some e) => some (browsers', some e)
    | some (browsers', none) => runEntries env fs browsers'

/-- The outer `try_for_each` over the root directories.  A directory whose
`read_dir` fails makes the source panic (`read_dir(dir).unwrap()`). -/
def runDirs (env : Env) :
    List String → List Browser → Option (List Browser × Option String)
  | [], browsers => some (browsers, none)
  | dir :: dirs, browsers =>
    match env.readDir dir with
    | none => none
    | some files =>
      match runEntries env files browsers with
      | none => none
      | some (browsers', some e) => some (browsers', some e)
      | some (browsers', none) => runDirs env dirs browsers'

/-- `read_system_browsers_sync` from `src/os/macos/sys_browsers.rs`: runs
the traversal, ignores its `BSResult` (it is only printed in debug builds)
and returns `Ok(browsers)`; `none` models a panic inside the traversal. -/
def read_system_browsers_sync (env : Env) :
    Option (Except String (List Browser)) :=
  match runDirs env directories [] with
  | none => none
  | some (browsers, _) => some (.ok browsers)

/-! ## Icon conversion (`src/ui.rs`) -/

/-- The WinRT pixel formats the conversion code distinguishes. -/
inductive BitmapPixelFormat where
  | Bgra8
  | Rgba8
  | Gray8
deriving DecidableEq

/-- The WinRT alpha modes. -/
inductive BitmapAlphaMode where
  | Premultiplied
  | Straight
  | Ignore
deriving DecidableEq

/-- A WinRT `SoftwareBitmap`, reduced to the attributes the source reads or
sets: pixel format, alpha mode, dimensions and the raw pixel bytes. -/
structure SoftwareBitmap where
  pixelFormat : BitmapPixelFormat
  alphaMode : BitmapAlphaMode
  width : Int
  height : Int
  data : List Nat
deriving DecidableEq

/-- Modelled from the spec: `SoftwareBitmap::convert_with_alpha` (a WinRT
call, outside `src/`) applies a format + alpha-mode conversion, producing a
bitmap with the requested pixel format and alpha mode. -/
def convert_with_alpha (bmp : SoftwareBitmap) (fmt : BitmapPixelFormat)
    (alpha : BitmapAlphaMode) : SoftwareBitmap :=
  { bmp with pixelFormat := fmt, alphaMode := alpha }

/-- `software_bitmap_to_xaml_image` from `src/ui.rs`, observed through the
bitmap it hands to `SoftwareBitmapSource::set_bitmap_async` (the source of
the produced XAML `Image` control): the `match` on
`bmp.bitmap_pixel_format()` converts in the `Bgra8` arm and passes the
bitmap through unchanged in the `_` arm. -/
def software_bitmap_to_xaml_image (bmp : SoftwareBitmap) : SoftwareBitmap :=
  match bmp.pixelFormat with
  | .Bgra8 => convert_with_alpha bmp .Bgra8 .Premultiplied
  | _ => bmp

/-- The `ICONINFO` color/mask bitmap handles filled in by `GetIconInfo`. -/
structure IconInfoR where
  hbmColor : Nat
  hbmMask : Nat

/-- The `BITMAP` header (`dib.dsBm`) filled in by `GetObjectW`: dimensions,
bits per pixel and the `bmBits` pointer (`0` = NULL). -/
structure DibBm where
  bmWidth : Int
  bmHeight : Int
  bmBitsPixel : Int
  bmBits : Nat

/-- Environment of `hicon_to_software_bitmap`: the outcome of every WinAPI
and WinRT call the function makes.  `getIconInfo = none` models
`GetIconInfo` returning 0; byte buffers written by the OS are supplied as
lists of byte values. -/
structure IconEnv where
  getIconInfo : Option IconInfoR
  getObjectBytes : Int
  dib : DibBm
  getBitmapBitsRead : Int
  bitmapBits : List Nat
  dibBytes : List Nat
  dataWriterNew : Except String Unit
  writeBytes : Except String Unit
  detachBuffer : Except String Unit
  createBitmap : Except String Unit

/-- `std::mem::size_of::<DIBSECTION>()`, per the source's own comment
("DIBSECTION is 104 bytes"). -/
def dib_struct_size : Int := 104

/-- `std::mem::size_of::<BITMAP>()`, per the source's own comment
("BITMAP size is 32 bytes"). -/
def bitmap_struct_size : Int := 32

/-- A byte buffer of exactly `n` bytes whose prefix is OS-supplied data:
models `Vec::resize(n, 0)` followed by an OS write, and
`slice::from_raw_parts(ptr, n).to_vec()`. -/
def osBuffer (bytes : List Nat) (n : Nat) : List Nat :=
  (bytes ++ List.replicate n 0).take n

/-- `u32::from_ne_bytes` on a 4-byte chunk (little-endian; bytes are
reduced mod 256 to model `u8`). -/
def u32_from_ne_bytes (c : List Nat) : Nat :=
  match c with
  | [b0, b1, b2, b3] => b0 % 256 + 256 * (b1 % 256) + 65536 * (b2 % 256) + 16777216 * (b3 % 256)
  | _ => 0

/-- `chunks_exact(4)`: full 4-byte chunks, remainder dropped. -/
def chunksExact4 : List Nat → List (List Nat)
  | b0 :: b1 :: b2 :: b3 :: rest => [b0, b1, b2, b3] :: chunksExact4 rest
  | _ => []

/-- Modelled from the spec (and `src/ui.rs`'s use): `util::as_u8_slice`
(not under `src/`) reinterprets a `u32` slice as its underlying bytes
(native little-endian order). -/
def as_u8_slice (ws : List Nat) : List Nat :=
  ws.flatMap (fun w => [w % 256, w / 256 % 256, w / 65536 % 256, w / 16777216 % 256])

/-- `hicon_to_software_bitmap` from `src/ui.rs`.  The first component is
the function's `BSResult`; the second records, in call order, the handles
passed to `winapi::DeleteObject`.  The `0 => Err(...)` arm of the source's
`match bytes_read` is unreachable (a zero `bytes_read` already bailed out
earlier) and is subsumed by the final catch-all arm here. -/
def hicon_to_software_bitmap (env : IconEnv) :
    Except String SoftwareBitmap × List Nat :=
  match env.getIconInfo with
  | none => (.error "Couldn't get icon info for HICON", [])
  | some icon_info =>
    let bytes_read := env.getObjectBytes
    if bytes_read = 0 then
      (.error "Error: winapi::GetObject returned 0 on ICONINFO.hbmColor bitmap.",
        [icon_info.hbmColor, icon_info.hbmMask])
    else
      let dib := env.dib
      let bmp_size_in_bytes := dib.bmHeight * dib.bmWidth * (dib.bmBitsPixel / 8)
      let pixel_bytes_result : Except String (List Nat) :=
        if bytes_read = bitmap_struct_size then
          if env.getBitmapBitsRead = 0 then
            .error "winapi::GetBitmapBits read 0 bytes from the ICONINFO.hbmColor"
          else .ok (osBuffer env.bitmapBits bmp_size_in_bytes.toNat)
        else if bytes_read = dib_struct_size then
          if dib.bmBits ≠ 0 then
            .ok (osBuffer env.dibBytes bmp_size_in_bytes.toNat)
          else
            .error "Unexpected NULL pointer for image bits from DIBSECTION.dsBm.bmBits"
        else
          .error "Unexpected response from winapi::GetObject, was expecting read bytes to match either the BITMAP struct size or the DIBSECTION struct size."
      match pixel_bytes_result with
      | .error e => (.error e, [icon_info.hbmColor, icon_info.hbmMask])
      | .ok pixel_bytes =>
        let raw_pixels := (chunksExact4 pixel_bytes).map u32_from_ne_bytes
        match env.dataWriterNew with
        | .error e => (.error e, [])
        | .ok _ =>
          match env.writeBytes with
          | .error e => (.error e, [])
          | .ok _ =>
            match env.detachBuffer with
            | .error e => (.error e, [])
            | .ok _ =>
              match env.createBitmap with
              | .error e => (.error e, [])
              | .ok _ =>
                (.ok
                  { pixelFormat := .Bgra8
                    alphaMode := .Straight
                    width := dib.bmWidth
                    height := dib.bmHeight
                    data := as_u8_slice raw_pixels },
                  [icon_info.hbmColor, icon_info.hbmMask])

/-! ## Helper lemmas -/

/-- A required property is "bad" when the key is absent or its value is not
a string — exactly the two failure cases of the per-property closure. -/
def badProp (d : PDict) (p : String) : Prop :=
  dictGet d p = none ∨ ∃ v, dictGet d p = some v ∧ v.as_string = none

/-- A bad property makes `propValue` fail with one of its two messages. -/
lemma propValue_error_of_bad (d : PDict) (p : String) (h : badProp d p) :
    propValue d p = .error ("No " ++ p ++ " found in Info.plist")
      ∨ propValue d p = .error ("Cannot convert " ++ p ++ " to a string.") := by
  rcases h with h | ⟨v, hv, hs⟩
  · exact Or.inl (by simp [propValue, h])
  · exact Or.inr (by simp [propValue, hv, hs])

/-- A property that is present and string-typed yields an `ok` value. -/
lemma propValue_ok_of_good (d : PDict) (p : String)
    (h : ∃ v s, dictGet d p = some v ∧ v.as_string = some s) :
    ∃ s, propValue d p = .ok s := by
  rcases h with ⟨v, s, hv, hs⟩
  exact ⟨s, by simp [propValue, hv, hs]⟩

/-- An error on the first required property is the extractor's result. -/
lemma browser_from_plist_error_fst (fs : String → Bool) (d : PDict) (dir : String)
    (e : String) (h : propValue d "CFBundleExecutable" = .error e) :
    browser_from_plist fs d dir = .error e := by
  simp [browser_from_plist, collectProps, plist_props, h]

/-- An error on the second required property is the extractor's result. -/
lemma browser_from_plist_error_snd (fs : String → Bool) (d : PDict) (dir : String)
    (s1 e : String) (h1 : propValue d "CFBundleExecutable" = .ok s1)
    (h : propValue d "CFBundleName" = .error e) :
    browser_from_plist fs d dir = .error e := by
  simp [browser_from_plist, collectProps, plist_props, h1, h, Except.map]

/-- An error on the third required property is the extractor's result. -/
lemma browser_from_plist_error_thd (fs : String → Bool) (d : PDict) (dir : String)
    (s1 s2 e : String) (h1 : propValue d "CFBundleExecutable" = .ok s1)
    (h2 : propValue d "CFBundleName" = .ok s2)
    (h : propValue d "CFBundleShortVersionString" = .error e) :
    browser_from_plist fs d dir = .error e := by
  simp [browser_from_plist, collectProps, plist_props, h1, h2, h, Except.map]

/-- With all three required properties good, extraction succeeds. -/
lemma browser_from_plist_ok_of_good (fs : String → Bool) (d : PDict) (dir : String)
    (hgood : ∀ p ∈ plist_props, ∃ v s, dictGet d p = some v ∧ v.as_string = some s) :
    ∃ b, browser_from_plist fs d dir = .ok b := by
  obtain ⟨s1, h1⟩ := propValue_ok_of_good d "CFBundleExecutable"
    (hgood _ (by simp [plist_props]))
  obtain ⟨s2, h2⟩ := propValue_ok_of_good d "CFBundleName"
    (hgood _ (by simp [plist_props]))
  obtain ⟨s3, h3⟩ := propValue_ok_of_good d "CFBundleShortVersionString"
    (hgood _ (by simp [plist_props]))
  have hc : collectProps d plist_props = .ok [s1, s2, s3] := by
    simp [collectProps, plist_props, h1, h2, h3, Except.map]
  unfold browser_from_plist
  rw [hc]
  exact ⟨_, rfl⟩

/-- When extraction succeeds with browser `b`, the push loop appends one
copy of `b` per scheme contained in `urls_required`. -/
lemma push_loop_fst_ok (fs : String → Bool) (d : PDict) (dir : String) (b : Browser)
    (hb : browser_from_plist fs d dir = .ok b) (ss : List String) :
    ∀ st : List Browser × List String,
      (push_loop fs d dir ss st).1
        = st.1 ++ List.replicate (ss.countP (fun s => urls_required.contains s)) b := by
  induction ss with
  | nil => intro st; simp [push_loop]
  | cons s ss ih =>
    intro st
    by_cases hc : s ∈ urls_required
    · simp [push_loop, push_step, hc, hb, ih, List.countP_cons, List.replicate_succ,
        List.append_assoc]
    · simp [push_loop, push_step, hc, ih, List.countP_cons]

/-- When extraction fails, the push loop appends no browser at all. -/
lemma push_loop_fst_err (fs : String → Bool) (d : PDict) (dir : String) (e : String)
    (hb : browser_from_plist fs d dir = .error e) (ss : List String) :
    ∀ st : List Browser × List String, (push_loop fs d dir ss st).1 = st.1 := by
  induction ss with
  | nil => intro st; simp [push_loop]
  | cons s ss ih =>
    intro st
    by_cases hc : s ∈ urls_required
    · simp [push_loop, push_step, hc, hb, ih]
    · simp [push_loop, push_step, hc, ih]

/-- Membership in `urls_required` is exact, case-sensitive string equality
with `"http"` or `"https"`. -/
lemma contains_urls_required (s : String) :
    urls_required.contains s = true ↔ s = "http" ∨ s = "https" := by
  simp [urls_required, List.contains, or_comm]

/-- A property that is not bad yields an `ok` value. -/
lemma propValue_ok_of_not_bad (d : PDict) (p : String) (h : ¬ badProp d p) :
    ∃ s, propValue d p = .ok s := by
  unfold badProp at h
  push_neg at h
  obtain ⟨h1, h2⟩ := h
  rcases hv : dictGet d p with _ | v
  · exact (h1 hv).elim
  · rcases hs : v.as_string with _ | s
    · exact ((h2 v hv) hs).elim
    · exact ⟨s, by simp [propValue, hv, hs]⟩

/-! ## Concrete manifests and scan environments -/

/-- A well-formed `CFBundleURLTypes` entry declaring the given schemes. -/
def urlTypesEntry (schemes : List String) : PValue :=
  .dict [("CFBundleURLSchemes", .array (schemes.map .string))]

/-- A fully well-formed browser manifest declaring only `https`. -/
def firefoxDict : PDict :=
  [("CFBundleExecutable", .string "firefox"),
   ("CFBundleName", .string "Firefox"),
   ("CFBundleShortVersionString", .string "1.0"),
   ("CFBundleURLTypes", .array [urlTypesEntry ["https"]])]

/-- The candidate extracted from `firefoxDict` at `/Applications/Firefox.app`. -/
def firefoxBrowser : Browser :=
  { exe_path := "/Applications/Firefox.app/Contents/MacOS/firefox"
    arguments := []
    name := "Firefox"
    icon := ""
    exe_exists := false
    icon_exists := false
    version :=
      { company_name := ""
        file_description := ""
        product_version := "1.0"
        product_name := "Firefox"
        binary_type := .none } }

/-- A manifest with all three metadata fields but no `CFBundleURLTypes`. -/
def noTypesDict : PDict :=
  [("CFBundleExecutable", .string "editor"),
   ("CFBundleName", .string "Editor"),
   ("CFBundleShortVersionString", .string "2.0")]

/-- A manifest whose `CFBundleURLTypes` array holds one malformed entry
(a bare string) next to one well-formed entry declaring `http`. -/
def partialDict : PDict :=
  [("CFBundleExecutable", .string "hybrid"),
   ("CFBundleName", .string "Hybrid"),
   ("CFBundleShortVersionString", .string "3.0"),
   ("CFBundleURLTypes", .array [.string "oops", urlTypesEntry ["http"]])]

/-- A well-formed manifest declaring both `http` and `https`. -/
def chromeDict : PDict :=
  [("CFBundleExecutable", .string "chrome"),
   ("CFBundleName", .string "Chrome"),
   ("CFBundleShortVersionString", .string "4.0"),
   ("CFBundleURLTypes", .array [urlTypesEntry ["http", "https"]])]

/-- The candidate extracted from `chromeDict` at `/Applications/Chrome.app`. -/
def chromeBrowser : Browser :=
  { exe_path := "/Applications/Chrome.app/Contents/MacOS/chrome"
    arguments := []
    name := "Chrome"
    icon := ""
    exe_exists := false
    icon_exists := false
    version :=
      { company_name := ""
        file_description := ""
        product_version := "4.0"
        product_name := "Chrome"
        binary_type := .none } }

/-- A scan environment: `/Applications` and `/System/Applications` hold the
given entries, and exactly the listed plist paths exist, parsing to the
associated result.  Every other path (executables included) is absent. -/
def mkEnv (apps sysApps : List DirEntryR)
    (plists : List (String × Except String PValue)) : Env :=
  { readDir := fun dir =>
      if dir = "/Applications" then some apps
      else if dir = "/System/Applications" then some sysApps
      else none
    pathExists := fun p => (plists.find? (fun q => q.1 == p)).isSome
    plistFromFile := fun p =>
      match plists.find? (fun q => q.1 == p) with
      | some q => q.2
      | none => .error "no such file" }

/-- Only a valid Firefox bundle is installed. -/
def envOnlyFirefox : Env :=
  mkEnv [.ok "/Applications/Firefox.app"] []
    [("/Applications/Firefox.app/Contents/Info.plist", .ok (.dict firefoxDict))]

/-- A bundle whose `Info.plist` exists but fails to parse, followed by the
valid Firefox bundle. -/
def envParseFail : Env :=
  mkEnv [.ok "/Applications/Broken.app", .ok "/Applications/Firefox.app"] []
    [("/Applications/Broken.app/Contents/Info.plist", .error "file does not parse as a plist"),
     ("/Applications/Firefox.app/Contents/Info.plist", .ok (.dict firefoxDict))]

/-- A bundle without `CFBundleURLTypes`, followed by the valid Firefox
bundle. -/
def envNoTypesFirst : Env :=
  mkEnv [.ok "/Applications/Editor.app", .ok "/Applications/Firefox.app"] []
    [("/Applications/Editor.app/Contents/Info.plist", .ok (.dict noTypesDict)),
     ("/Applications/Firefox.app/Contents/Info.plist", .ok (.dict firefoxDict))]

/-- Only the bundle with the partially malformed `CFBundleURLTypes`. -/
def envPartialTypes : Env :=
  mkEnv [.ok "/Applications/Hybrid.app"] []
    [("/Applications/Hybrid.app/Contents/Info.plist", .ok (.dict partialDict))]

/-- Only the bundle declaring both `http` and `https`. -/
def envBothSchemes : Env :=
  mkEnv [.ok "/Applications/Chrome.app"] []
    [("/Applications/Chrome.app/Contents/Info.plist", .ok (.dict chromeDict))]

/-! ## Claim theorems -/

/-- C1 (code_bug): a per-entry failure does not become a diagnostic with the
scan continuing.  With a bundle whose `Info.plist` fails to parse placed
before a valid Firefox bundle, the scan panics (`plist::Value::from_file
(..).unwrap()`), modelled by `none`, so the later entry is lost; with the
broken bundle absent, the very same remaining entry yields its candidate. -/
theorem scan_halts_on_manifest_parse_failure :
    read_system_browsers_sync envParseFail = none ∧
      read_system_browsers_sync envOnlyFirefox = some (.ok [firefoxBrowser]) :=
  ⟨rfl, rfl⟩

/-- C2 (code_bug): a manifest with no `CFBundleURLTypes` key is not a quiet
negative.  `supported_url_schemes_from_appinfo` returns
`Err("No CFBundleURLTypes")`, which the `?` operator propagates through both
`try_for_each` loops: the valid Firefox bundle right after it is never
scanned, whereas alone it yields its candidate. -/
theorem scan_truncated_by_missing_url_types :
    read_system_browsers_sync envNoTypesFirst = some (.ok []) ∧
      read_system_browsers_sync envOnlyFirefox = some (.ok [firefoxBrowser]) :=
  ⟨rfl, rfl⟩

/-- C4 (code_bug): one malformed `CFBundleURLTypes` entry next to a
well-formed one declaring `http` does not lead to partial extraction: the
first computation yields `Err` while the second yields `Some([])`, so the
caller's `url_schemes_result.unwrap()` panics (modelled by `none`) instead
of using the well-formed entry's schemes. -/
theorem scan_panics_on_partially_malformed_url_types :
    supported_url_schemes_from_appinfo partialDict
        = .ok (.error "Cannot read CFBundleURLTypes as dictionary.", some []) ∧
      read_system_browsers_sync envPartialTypes = none :=
  ⟨rfl, rfl⟩

/-- C8 (code_bug): the `for_each` over the flattened scheme list runs
`browser_from_plist` and pushes once per scheme contained in
`urls_required`, so a single manifest declaring both `http` and `https`
contributes two identical candidates to the scan's result list, not one. -/
theorem scan_appends_one_candidate_per_matching_scheme :
    read_system_browsers_sync envBothSchemes
      = some (.ok [chromeBrowser, chromeBrowser]) :=
  rfl

/-- C10 (confirmed): whenever `read_system_browsers_sync` returns normally
(the model returns `some`), the value is `Ok`: the traversal's `BSResult`
is dropped, and whatever browsers were accumulated when the traversal
stopped are returned as a successful result. -/
theorem read_system_browsers_sync_never_err (env : Env)
    (r : Except String (List Browser))
    (h : read_system_browsers_sync env = some r) : ∃ bs, r = .ok bs := by
  unfold read_system_browsers_sync at h
  rcases hr : runDirs env directories [] with _ | ⟨bs, e⟩ <;> rw [hr] at h
  · cases h
  · exact ⟨bs, (Option.some.injEq .. ▸ h).symm⟩

/-- Witness for C10 at an environment whose traversal stops early with an
internal error (`No CFBundleURLTypes`): the result is still an `Ok`. -/
theorem read_system_browsers_sync_never_err_witness :
    ∃ bs, (Except.ok ([] : List Browser) : Except String (List Browser))
      = .ok bs :=
  read_system_browsers_sync_never_err envNoTypesFirst (.ok []) rfl

/-- A manifest whose `CFBundleName` key is absent. -/
def noNameDict : PDict :=
  [("CFBundleExecutable", .string "tool"),
   ("CFBundleShortVersionString", .string "9.9")]

/-- C6 (confirmed): when any of the three required fields is absent or not
string-typed, `browser_from_plist` fails with an error that names an
offending field — either the `No {field} found in Info.plist` or the
`Cannot convert {field} to a string.` message — and produces no `Browser`. -/
theorem browser_from_plist_names_offending_field (fs : String → Bool)
    (d : PDict) (dir : String) (h : ∃ p ∈ plist_props, badProp d p) :
    ∃ p msg, p ∈ plist_props ∧ badProp d p ∧
      browser_from_plist fs d dir = .error msg ∧
      (msg = "No " ++ p ++ " found in Info.plist" ∨
        msg = "Cannot convert " ++ p ++ " to a string.") := by
  by_cases h1 : badProp d "CFBundleExecutable"
  · rcases propValue_error_of_bad d _ h1 with he | he
    · exact ⟨"CFBundleExecutable", _, by simp [plist_props], h1,
        browser_from_plist_error_fst fs d dir _ he, Or.inl rfl⟩
    · exact ⟨"CFBundleExecutable", _, by simp [plist_props], h1,
        browser_from_plist_error_fst fs d dir _ he, Or.inr rfl⟩
  · obtain ⟨s1, hs1⟩ := propValue_ok_of_not_bad d _ h1
    by_cases h2 : badProp d "CFBundleName"
    · rcases propValue_error_of_bad d _ h2 with he | he
      · exact ⟨"CFBundleName", _, by simp [plist_props], h2,
          browser_from_plist_error_snd fs d dir s1 _ hs1 he, Or.inl rfl⟩
      · exact ⟨"CFBundleName", _, by simp [plist_props], h2,
          browser_from_plist_error_snd fs d dir s1 _ hs1 he, Or.inr rfl⟩
    · obtain ⟨s2, hs2⟩ := propValue_ok_of_not_bad d _ h2
      by_cases h3 : badProp d "CFBundleShortVersionString"
      · rcases propValue_error_of_bad d _ h3 with he | he
        · exact ⟨"CFBundleShortVersionString", _, by simp [plist_props], h3,
            browser_from_plist_error_thd fs d dir s1 s2 _ hs1 hs2 he, Or.inl rfl⟩
        · exact ⟨"CFBundleShortVersionString", _, by simp [plist_props], h3,
            browser_from_plist_error_thd fs d dir s1 s2 _ hs1 hs2 he, Or.inr rfl⟩
      · exfalso
        obtain ⟨p, hp, hbad⟩ := h
        simp [plist_props] at hp
        rcases hp with rfl | rfl | rfl
        · exact h1 hbad
        · exact h2 hbad
        · exact h3 hbad

/-- Witness for C6 on a manifest missing `CFBundleName`. -/
theorem browser_from_plist_names_offending_field_witness :
    ∃ p msg, p ∈ plist_props ∧ badProp noNameDict p ∧
      browser_from_plist (fun _ => false) noNameDict
          "/Applications/Tool.app/Contents" = .error msg ∧
      (msg = "No " ++ p ++ " found in Info.plist" ∨
        msg = "Cannot convert " ++ p ++ " to a string.") :=
  browser_from_plist_names_offending_field (fun _ => false) noNameDict
    "/Applications/Tool.app/Contents"
    ⟨"CFBundleName", by simp [plist_props], Or.inl rfl⟩

/-- C7 (confirmed): for a manifest whose required fields are present and
string-typed, the per-entry push loop contributes at least one candidate
exactly when the flattened scheme list holds an element equal (exact,
case-sensitive string equality) to `"http"` or `"https"`. -/
theorem included_iff_declares_http_or_https (fs : String → Bool) (d : PDict)
    (dir : String) (schemes : List String)
    (hgood : ∀ p ∈ plist_props, ∃ v s, dictGet d p = some v ∧ v.as_string = some s) :
    (push_loop fs d dir schemes ([], [])).1 ≠ [] ↔
      ∃ s ∈ schemes, s = "http" ∨ s = "https" := by
  obtain ⟨b, hb⟩ := browser_from_plist_ok_of_good fs d dir hgood
  rw [push_loop_fst_ok fs d dir b hb schemes ([], [])]
  simp only [List.nil_append, ne_eq]
  have hiff : 0 < schemes.countP (fun s => urls_required.contains s)
      ↔ ∃ s ∈ schemes, s = "http" ∨ s = "https" := by
    rw [List.countP_pos_iff]
    constructor
    · rintro ⟨s, hs, hp⟩
      exact ⟨s, hs, (contains_urls_required s).1 (by simpa using hp)⟩
    · rintro ⟨s, hs, hp⟩
      exact ⟨s, hs, by simpa using (contains_urls_required s).2 hp⟩
  rw [← hiff]
  have hrep : ∀ n : Nat, List.replicate n b = [] ↔ n = 0 := by
    intro n; cases n <;> simp
  rw [hrep]
  exact Iff.symm Nat.pos_iff_ne_zero

/-- Witness for C7: the Chrome manifest with flattened schemes
`["ftp", "http"]` is included. -/
theorem included_iff_declares_http_or_https_witness :
    (push_loop (fun _ => false) chromeDict "/Applications/Chrome.app/Contents"
        ["ftp", "http"] ([], [])).1 ≠ [] :=
  (included_iff_declares_http_or_https (fun _ => false) chromeDict
      "/Applications/Chrome.app/Contents" ["ftp", "http"]
      (by
        intro p hp
        simp [plist_props] at hp
        rcases hp with rfl | rfl | rfl
        · exact ⟨.string "chrome", "chrome", rfl, rfl⟩
        · exact ⟨.string "Chrome", "Chrome", rfl, rfl⟩
        · exact ⟨.string "4.0", "4.0", rfl, rfl⟩)).mpr
    ⟨"http", by simp, Or.inl rfl⟩

/-! ## Icon claim theorems -/

/-- An icon whose every WinAPI / WinRT call succeeds: `GetIconInfo` yields
handles 5 (color) and 6 (mask), `GetObjectW` reports a `DIBSECTION`
(104 bytes) for a 2×2, 32-bit bitmap with addressable bits. -/
def iconEnvBase : IconEnv :=
  { getIconInfo := some { hbmColor := 5, hbmMask := 6 }
    getObjectBytes := 104
    dib := { bmWidth := 2, bmHeight := 2, bmBitsPixel := 32, bmBits := 1 }
    getBitmapBitsRead := 1
    bitmapBits := []
    dibBytes := List.replicate 16 255
    dataWriterNew := .ok ()
    writeBytes := .ok ()
    detachBuffer := .ok ()
    createBitmap := .ok () }

/-- The same icon, but `SoftwareBitmap::create_copy_with_alpha_from_buffer`
fails (one of the `?`-propagated WinRT calls after pixel extraction). -/
def iconEnvLeak : IconEnv :=
  { iconEnvBase with createBitmap := .error "SoftwareBitmap creation failed" }

/-- C3 (code_bug): after `GetIconInfo` succeeds, an error in one of the
`?`-propagated WinRT calls (here the final bitmap creation) returns without
any `DeleteObject` call — the recorded deletion list is empty — whereas the
success path on the same icon releases both handles. -/
theorem hicon_handles_leaked_on_late_failure :
    hicon_to_software_bitmap iconEnvLeak
        = (.error "SoftwareBitmap creation failed", []) ∧
      (hicon_to_software_bitmap iconEnvBase).2 = [5, 6] :=
  ⟨rfl, rfl⟩

/-- A 2×2 bitmap whose pixel format is not BGRA8. -/
def rgbaStraightBmp : SoftwareBitmap :=
  { pixelFormat := .Rgba8, alphaMode := .Straight, width := 2, height := 2,
    data := List.replicate 16 0 }

/-- A 2×2 BGRA8 bitmap with straight (non-premultiplied) alpha. -/
def bgraStraightBmp : SoftwareBitmap :=
  { pixelFormat := .Bgra8, alphaMode := .Straight, width := 2, height := 2,
    data := List.replicate 16 0 }

/-- C5 (code_bug): the `match` arms of `software_bitmap_to_xaml_image` are
swapped with respect to the claim (and to the source's own comment): a
non-BGRA8 bitmap is handed to the image source unconverted, while an
already-BGRA8 bitmap does get the format + alpha-mode conversion. -/
theorem xaml_image_conversion_arms_swapped :
    software_bitmap_to_xaml_image rgbaStraightBmp = rgbaStraightBmp ∧
      software_bitmap_to_xaml_image bgraStraightBmp
        = { bgraStraightBmp with alphaMode := .Premultiplied } :=
  ⟨rfl, rfl⟩

end BrowserSelector
